import Mathlib

/-!
# Verification of the fhevm-template session/cache layer

Shallow embedding of the session-state and resource-cache core of the
repository: the reactive config store (`createConfig.ts`), the instance
acquisition routine (`actions/createInstance.ts`), the decrypt action
(`actions/decrypt.ts`), and the storage serializer pair
(`createStorage.ts`).  Instances are opaque and modelled as `Nat`
identifiers; external collaborators (providers, the relayer SDK, signers)
are modelled as oracle inputs.
-/

namespace FhevmSpec

/-- The four-state session status from `createConfig.ts`
(`status: 'idle' | 'loading' | 'ready' | 'error'`). -/
inductive FhevmStatus where
  | idle
  | loading
  | ready
  | error
deriving DecidableEq, Repr

/-- Errors thrown by the acquisition/decrypt layer.  `coded c` is
`FhevmError` with `code = c` (messages are elided), `abortErr` is
`FhevmAbortError`, and `hostErr t` is any non-FHEVM error raised by an
external collaborator (network stack, relayer SDK, storage backend),
distinguished only by an opaque tag. -/
inductive FhevmErr where
  | coded (code : String)
  | abortErr
  | hostErr (tag : Nat)
deriving DecidableEq, Repr

/-- Session `State` from `createConfig.ts`: `{ chainId, instance, status, error }`.
The `instance` field is named `inst` here (`instance` is a Lean keyword);
instances are opaque `Nat` identifiers. -/
structure SessionState where
  chainId : Int
  inst : Option Nat
  status : FhevmStatus
  error : Option FhevmErr
deriving DecidableEq, Repr

/-- Model of `getInitialState` from `createConfig.ts`: first configured chain id,
status `idle`, no instance, no error.  (`chainsStore.getState()[0]` is
`headI`; the chains list is non-empty by the constructor's type.) -/
def getInitialState (chains : List Int) : SessionState :=
  { chainId := chains.headI
    inst := none
    status := .idle
    error := none }

/-! ## Chains store mutation (`config._internal.chains.setState`) -/

/-- Model of `_internal.chains.setState` from `createConfig.ts`: the argument is
either a replacement list or an updater function of the current list;
an empty result is rejected (`if (nextChains.length === 0) return`),
otherwise the whole list is replaced (`chainsStore.setState(next, true)`). -/
def chainsSetState (current : List Int)
    (value : List Int ⊕ (List Int → List Int)) : List Int :=
  let nextChains := match value with
    | .inl l => l
    | .inr f => f current
  if nextChains.length = 0 then current else nextChains

/-! ## Session store setter (`config.setState`) -/

/-- The JavaScript value handed to `config.setState` (after applying the
updater function, when one was passed).  `jsNull` is the JS `null`
(`typeof null === 'object'`, but `'chainId' in null` throws a
`TypeError`); `nonObject` is any value with `typeof ≠ 'object'`;
`obj keys st` is an object carrying the listed keys, read back as the
session state `st` when all base keys are present. -/
inductive SetStateValue where
  | jsNull
  | nonObject
  | obj (keys : List String) (st : SessionState)

/-- The keys of `getInitialState()`, in the literal's order
(`Object.keys(initialState)`). -/
def baseStateKeys : List String := ["chainId", "status", "instance", "error"]

/-- Model of `config.setState` from `createConfig.ts`, after the updater (if any)
has produced `newState`.  A non-object value is replaced by
`getInitialState()`; an object missing one of the base keys is corrupt
and replaced by `getInitialState()`; otherwise the value is stored with
`replace = true`.  Passing JS `null` survives the `typeof` guard (JS
reports `typeof null === 'object'`) and then crashes in
`Object.keys(initialState).some((x) => !(x in newState))` with a
`TypeError`, so the store is left unchanged: this is the `.error` case. -/
def setStateModel (chains : List Int) (value : SetStateValue) :
    Except Unit SessionState :=
  let initialState := getInitialState chains
  match value with
  | .jsNull => .error ()
  | .nonObject => .ok initialState
  | .obj keys st =>
      if baseStateKeys.any (fun k => !(keys.contains k)) then .ok initialState
      else .ok st

/-! ## Persisted-state rehydration (`persist` middleware `merge`) -/

/-- The `unknown` value read back from storage by the persist middleware.
`notObj` covers `null`/primitives, `objWithout` an object without a
numeric `chainId`, and `objChainId n` an object with numeric
`chainId = n`. -/
inductive PersistedValue where
  | notObj
  | objWithout
  | objChainId (n : Int)

/-- Model of `validatePersistedChainId` from `createConfig.ts`: the persisted
`chainId` is kept only when it is a number and a member of the current
chains-store list (`chainsStore.getState().some((x) => x === chainId)`);
otherwise `defaultChainId` is used. -/
def validatePersistedChainId (chains : List Int) (persisted : PersistedValue)
    (defaultChainId : Int) : Int :=
  match persisted with
  | .objChainId n => if chains.any (fun x => x == n) then n else defaultChainId
  | _ => defaultChainId

/-- The persist middleware's `merge(persistedState, currentState)` from
`createConfig.ts`: spreads `currentState` then `persistedState`, then
overrides `chainId` with the validated value and always resets
`instance := null`, `error := null`, `status := 'idle'`.  Every field of
the session state is overridden, so the spreads leave nothing else
observable. -/
def mergePersisted (chains : List Int) (persisted : PersistedValue)
    (currentState : SessionState) : SessionState :=
  { chainId := validatePersistedChainId chains persisted currentState.chainId
    inst := none
    status := .idle
    error := none }

/-! ## Decryption authorization (`actions/decrypt.ts`, `FhevmDecryptionSignature`) -/

/-- A decryption request from `actions/decrypt.ts`:
`{ handle, contractAddress }`. -/
structure DecryptRequest where
  handle : String
  contractAddress : String
deriving DecidableEq, Repr

/-- The `FhevmDecryptionSignature` artifact: key pair, EIP-712 signature,
covered contract-address set, user address, and the time box
`startTimestamp`/`durationDays`. -/
structure FhevmDecryptionSignature where
  publicKey : String
  privateKey : String
  signature : String
  contractAddresses : List String
  userAddress : String
  startTimestamp : Int
  durationDays : Int
deriving DecidableEq, Repr

/-- Modelled from the spec: `FhevmDecryptionSignature.isValid` is not under
`src/` (only its caller `decrypt` is); per the spec invariant the artifact
is "valid only while `now < startTimestamp + durationDays`".  Timestamps
and durations are measured in the same unit (days), matching the spec's
arithmetic. -/
def FhevmDecryptionSignature.isValid (sig : FhevmDecryptionSignature)
    (now : Int) : Bool :=
  decide (now < sig.startTimestamp + sig.durationDays)

/-- Model of `Array.from(new Set(xs))` from `actions/decrypt.ts`:
first-occurrence deduplication, preserving insertion order. -/
def jsSetDedup : List String → List String
  | [] => []
  | a :: rest => a :: jsSetDedup (rest.filter (fun x => x != a))
termination_by l => l.length
decreasing_by
  exact Nat.lt_succ_of_le (List.length_filter_le _ _)

/-- Model of the per-request handle validation loop in `actions/decrypt.ts`:
a handle must be a non-empty string, start with `0x`, and match
`^0x[0-9a-fA-F]+$` (the 66-character length check only warns). -/
def isValidHandle (h : String) : Bool :=
  h ≠ "" && h.startsWith "0x" && (h.drop 2) ≠ "" &&
    (h.drop 2).all fun c =>
      c.isDigit || ('a' ≤ c && c ≤ 'f') || ('A' ≤ c && c ≤ 'F')

/-- Errors raised by the `decrypt` action, by the short code that starts
their message.  (Every one of them is re-thrown by the action's outer
catch wrapped as `FHEVM_DECRYPT_ERROR: <original message>`; the model
keeps the inner code.)  `runtime t` is a `userDecrypt` failure re-thrown
under its own name, with an opaque tag. -/
inductive DecryptErr where
  | signatureError
  | signatureExpired
  | signatureMismatch
  | invalidHandle
  | runtime (tag : Nat)
deriving DecidableEq, Repr

/-- Model of the `decrypt` action from `actions/decrypt.ts`, with the
result of `FhevmDecryptionSignature.loadOrSign` passed in as `sig?` and
`instance.userDecrypt` as the oracle `userDecrypt` (`.ok r` an opaque
result record, `.error t` a failure).  An empty request list returns the
empty record (`none`) before any signature work; then, in source order:
a null signature is `SIGNATURE_ERROR`, an expired signature is
`SIGNATURE_EXPIRED`, a signature that does not cover every requested
contract address (`hasAllAddresses`) is `SIGNATURE_MISMATCH`, malformed
handles fail, and finally `userDecrypt` runs. -/
def decrypt (requests : List DecryptRequest)
    (sig? : Option FhevmDecryptionSignature) (now : Int)
    (userDecrypt : Except Nat Nat) : Except DecryptErr (Option Nat) :=
  if requests.isEmpty then .ok none
  else
    match sig? with
    | none => .error .signatureError
    | some sig =>
      if !(sig.isValid now) then .error .signatureExpired
      else
        let uniqueAddresses := jsSetDedup (requests.map (·.contractAddress))
        let hasAllAddresses :=
          uniqueAddresses.all fun addr => sig.contractAddresses.contains addr
        if !hasAllAddresses then .error .signatureMismatch
        else if !(requests.all fun r => isValidHandle r.handle) then
          .error .invalidHandle
        else
          match userDecrypt with
          | .error t => .error (.runtime t)
          | .ok r => .ok (some r)

/-- The data of a freshly minted authorization artifact: the key pair
derived from the instance, the signer's EIP-712 signature, and the
configured duration. -/
structure FreshSignature where
  publicKey : String
  privateKey : String
  signature : String
  durationDays : Int

/-- Modelled from the spec: the artifact minted by the signing round-trip
of `FhevmDecryptionSignature.loadOrSign` (not under `src/`) — fresh key
pair and signature, covering exactly the requested contract-address set,
time-boxed starting `now`. -/
def mintSignature (contractAddresses : List String) (userAddress : String)
    (now : Int) (fresh : FreshSignature) : FhevmDecryptionSignature :=
  { publicKey := fresh.publicKey
    privateKey := fresh.privateKey
    signature := fresh.signature
    contractAddresses := contractAddresses
    userAddress := userAddress
    startTimestamp := now
    durationDays := fresh.durationDays }

/-- Modelled from the spec: `FhevmDecryptionSignature.loadOrSign` (not
under `src/`).  The cached artifact under the cache key is reused only
when it is not expired and its address set fully covers the requested
set; otherwise — partial coverage included — it is a cache miss and a new
artifact is minted and persisted in its place.  The boolean reports
whether a signing round-trip (re-sign) happened. -/
def loadOrSign (cached : Option FhevmDecryptionSignature)
    (contractAddresses : List String) (userAddress : String) (now : Int)
    (fresh : FreshSignature) : FhevmDecryptionSignature × Bool :=
  match cached with
  | some sig =>
      if sig.isValid now &&
          (contractAddresses.all fun a => sig.contractAddresses.contains a)
      then (sig, false)
      else (mintSignature contractAddresses userAddress now fresh, true)
  | none => (mintSignature contractAddresses userAddress now fresh, true)

/-! ## Instance acquisition (`actions/createInstance.ts`) -/

/-- Static configuration relevant to `createInstance`: the configured
chains list and the optional `mockChains` table (an association list
modelling the `Record<number, string>`). -/
structure FhevmConfig where
  chains : List Int
  mockChains : Option (List (Int × String))

/-- Mutable config state: the instance cache (`_internal.instances`, a
`Map<number, FhevmInstance>`) and the session store state. -/
structure ConfigState where
  instances : List (Int × Nat)
  session : SessionState

/-- `Map.get` on the instance cache (association list, first match). -/
def mapGet (m : List (Int × Nat)) (k : Int) : Option Nat :=
  match m.find? (fun p => p.1 == k) with
  | some p => some p.2
  | none => none

/-- `Map.set` on the instance cache: the new binding shadows any old
one. -/
def mapSet (m : List (Int × Nat)) (k : Int) (v : Nat) : List (Int × Nat) :=
  (k, v) :: m

/-- Validated relayer metadata of an FHEVM Hardhat node: the three
contract addresses required by the mock path. -/
structure RelayerMetadata where
  aclAddress : String
  inputVerifierAddress : String
  kmsVerifierAddress : String

/-- Raw response of the `fhevm_relayer_metadata` RPC before the field
checks in `tryFetchFHEVMHardhatNodeRelayerMetadata` (a field is `none`
when absent or not a string). -/
structure RelayerMetadataRaw where
  isObject : Bool
  aclAddress : Option String
  inputVerifierAddress : Option String
  kmsVerifierAddress : Option String

/-- The field checks of `tryFetchFHEVMHardhatNodeRelayerMetadata`: the
metadata must be an object whose `ACLAddress`, `InputVerifierAddress`
and `KMSVerifierAddress` are strings starting with `0x`. -/
def validateRelayerMetadata (m : RelayerMetadataRaw) :
    Option RelayerMetadata :=
  if !m.isObject then none
  else
    match m.aclAddress, m.inputVerifierAddress, m.kmsVerifierAddress with
    | some acl, some iv, some kms =>
        if acl.startsWith "0x" && iv.startsWith "0x" && kms.startsWith "0x"
        then some ⟨acl, iv, kms⟩ else none
    | _, _, _ => none

/-- Oracle inputs for one `createInstance` call: the outcomes of every
external interaction, plus the abort signal as observed at the k-th
cooperative checkpoint (`throwIfAborted` site) executed during the call.
External collaborators fail with opaque `Nat` tags (they never throw the
FHEVM-typed errors or `FhevmAbortError`). -/
structure AcquireEnv where
  chainIdResult : Except Nat Int
  providerIsUrl : Bool
  providerUrl : String
  web3ClientVersion : Except Nat (Option String)
  relayerMetadata : Except Nat RelayerMetadataRaw
  signalAborted : Nat → Bool
  mockInstanceResult : Except Nat Nat
  windowAvailable : Bool
  windowIsFhevm : Bool
  windowIsFhevmAfterLoad : Bool
  sdkInitDone : Bool
  loadSDKResult : Except Nat Unit
  initSDKResult : Except Nat Unit
  publicKeyGetResult : Except Nat Nat
  aclIsAddress : Bool
  prodInstanceResult : Except Nat Nat
  publicKeySetResult : Except Nat Unit

/-- The merged `_mockChains` lookup of `resolve`:
`{ 31337: 'http://localhost:8545', ...(mockChains ?? {}) }` — an explicit
entry overrides the built-in default for the local Hardhat id. -/
def mergedMockChains (mockChains : Option (List (Int × String)))
    (chainId : Int) : Option String :=
  match (mockChains.getD []).find? (fun p => p.1 == chainId) with
  | some p => some p.2
  | none =>
      if chainId == 31337 then some "http://localhost:8545" else none

/-- Result of `resolve` from `actions/createInstance.ts`. -/
structure ResolveResult where
  isMock : Bool
  chainId : Int
  rpcUrl : Option String

/-- Model of `resolve` from `actions/createInstance.ts`: the chain id is
the oracle response (already obtained), the url is the provider itself
when it was a string, and membership in the merged `_mockChains` table
classifies the network as mock (defaulting the url from the table). -/
def resolve (providerIsUrl : Bool) (providerUrl : String) (chainId : Int)
    (mockChains : Option (List (Int × String))) : ResolveResult :=
  let rpcUrl0 : Option String :=
    if providerIsUrl then some providerUrl else none
  match mergedMockChains mockChains chainId with
  | some defaultUrl =>
      { isMock := true, chainId := chainId
        rpcUrl := some (rpcUrl0.getD defaultUrl) }
  | none => { isMock := false, chainId := chainId, rpcUrl := rpcUrl0 }

/-- The `isConfigured` check of `createInstance`:
`config.chains.includes(chainId) || (config.mockChains &&
Object.hasOwn(config.mockChains, chainId))` — note it consults the raw
`mockChains` table, without the built-in `31337` default that `resolve`
merges in. -/
def isChainConfigured (cfg : FhevmConfig) (chainId : Int) : Bool :=
  cfg.chains.contains chainId ||
    (match cfg.mockChains with
     | some mc => (mc.find? (fun p => p.1 == chainId)).isSome
     | none => false)

/-- Model of `version.toLowerCase().includes('hardhat')`. -/
def versionIsHardhat (v : String) : Bool :=
  decide ("hardhat".data <:+: v.toLower.data)

/-- Model of `tryFetchFHEVMHardhatNodeRelayerMetadata`: a failing
`web3_clientVersion` probe throws `WEB3_CLIENTVERSION_ERROR` (this one
propagates — only the metadata RPC is inside the `try`); a non-string or
non-Hardhat version yields `undefined`; a failing
`fhevm_relayer_metadata` RPC is caught and yields `undefined`; otherwise
the metadata is validated field by field. -/
def tryFetchFHEVMHardhatNodeRelayerMetadata (env : AcquireEnv) :
    Except FhevmErr (Option RelayerMetadata) :=
  match env.web3ClientVersion with
  | .error _ => .error (.coded "WEB3_CLIENTVERSION_ERROR")
  | .ok none => .ok none
  | .ok (some version) =>
      if !(versionIsHardhat version) then .ok none
      else
        match env.relayerMetadata with
        | .error _ => .ok none
        | .ok raw => .ok (validateRelayerMetadata raw)

/-- Outcome of one `createInstance` call: the returned/thrown result, the
instance cache and session state afterwards, and how many times the
expensive construction path (`fhevmMockCreateInstance` /
`relayerSDK.createInstance`) was invoked. -/
structure AcquireResult where
  result : Except FhevmErr Nat
  instances : List (Int × Nat)
  session : SessionState
  constructions : Nat

/-- Session outcome of the `catch` block of `createInstance`:
`{...state, instance: null, status: 'error', error}` over the loading
state (which set `chainId` to the resolved id and `error` to null), with
the error rethrown; the cache is untouched. -/
def errRun (st : ConfigState) (chainId : Int) (e : FhevmErr) (n : Nat) :
    AcquireResult :=
  { result := .error e
    instances := st.instances
    session := { chainId := chainId, inst := none, status := .error
                 error := some e }
    constructions := n }

/-- Session outcome of a successful return:
`{...state, instance, status: 'ready'}` over the loading state. -/
def readyRun (instances : List (Int × Nat)) (chainId : Int) (inst : Nat)
    (n : Nat) : AcquireResult :=
  { result := .ok inst
    instances := instances
    session := { chainId := chainId, inst := some inst, status := .ready
                 error := none }
    constructions := n }

/-- The production branch of `createInstance` (lines following the mock
branch), as a pure `(result, constructions)` pair over the oracle
environment.  Checkpoint indices count the `throwIfAborted` sites
executed on this path, starting at the one right before the browser
check; the optional load/init steps shift the later indices. -/
def prodCore (env : AcquireEnv) : Except FhevmErr Nat × Nat :=
  if env.signalAborted 0 then (.error .abortErr, 0)
  else if !env.windowAvailable then (.error (.coded "SSR_NOT_SUPPORTED"), 0)
  else
    let loadRan := !env.windowIsFhevm
    match (if loadRan then env.loadSDKResult else .ok ()) with
    | .error t => (.error (.hostErr t), 0)
    | .ok _ =>
      if loadRan && env.signalAborted 1 then (.error .abortErr, 0)
      else
        let windowIsFhevmNow :=
          if loadRan then env.windowIsFhevmAfterLoad else env.windowIsFhevm
        let sdkReady := windowIsFhevmNow && env.sdkInitDone
        let k2 : Nat := if loadRan then 2 else 1
        match (if !sdkReady then env.initSDKResult else .ok ()) with
        | .error t => (.error (.hostErr t), 0)
        | .ok _ =>
          if !sdkReady && env.signalAborted k2 then (.error .abortErr, 0)
          else
            let k3 : Nat := if sdkReady then k2 else k2 + 1
            if !env.aclIsAddress then
              (.error (.coded "INVALID_ACL_ADDRESS"), 0)
            else
              match env.publicKeyGetResult with
              | .error t => (.error (.hostErr t), 0)
              | .ok _pub =>
                if env.signalAborted k3 then (.error .abortErr, 0)
                else
                  match env.prodInstanceResult with
                  | .error t => (.error (.hostErr t), 1)
                  | .ok inst =>
                    match env.publicKeySetResult with
                    | .error t => (.error (.hostErr t), 1)
                    | .ok _ =>
                      if env.signalAborted (k3 + 1) then
                        (.error .abortErr, 1)
                      else (.ok inst, 1)

/-- The body of `createInstance`'s `try` block after the cache check, as a
pure `(result, constructions)` pair: the mock branch (probe, abort
check, mock construction, abort check) falling through to the production
branch when the probe yields `undefined`. -/
def acquireCore (env : AcquireEnv) (isMock : Bool) :
    Except FhevmErr Nat × Nat :=
  if isMock then
    match tryFetchFHEVMHardhatNodeRelayerMetadata env with
    | .error e => (.error e, 0)
    | .ok (some _md) =>
        if env.signalAborted 0 then (.error .abortErr, 0)
        else
          match env.mockInstanceResult with
          | .error t => (.error (.hostErr t), 1)
          | .ok mockInstance =>
              if env.signalAborted 1 then (.error .abortErr, 1)
              else (.ok mockInstance, 1)
    | .ok none => prodCore env
  else prodCore env

/-- Model of the `createInstance` action from `actions/createInstance.ts`:
obtain the chain id (a failure there propagates untouched, before any
state change); resolve against the merged mock table; reject
unconfigured chains with `CHAIN_NOT_CONFIGURED` (also before the `try`
block, so the session state is untouched); publish the loading state;
return a cached instance immediately as `ready`; otherwise run the
mock/production acquisition core, caching the instance and publishing
`ready` on success, or publishing the error state and rethrowing on
failure. -/
def createInstance (cfg : FhevmConfig) (st : ConfigState)
    (env : AcquireEnv) : AcquireResult :=
  match env.chainIdResult with
  | .error t =>
      { result := .error (.hostErr t), instances := st.instances
        session := st.session, constructions := 0 }
  | .ok chainId =>
    let r := resolve env.providerIsUrl env.providerUrl chainId cfg.mockChains
    if !(isChainConfigured cfg chainId) then
      { result := .error (.coded "CHAIN_NOT_CONFIGURED")
        instances := st.instances, session := st.session
        constructions := 0 }
    else
      match mapGet st.instances chainId with
      | some cached => readyRun st.instances chainId cached 0
      | none =>
        match acquireCore env r.isMock with
        | (.error e, n) => errRun st chainId e n
        | (.ok inst, n) =>
            readyRun (mapSet st.instances chainId inst) chainId inst n

/-! ## Storage serialization (`createStorage.ts`)

`defaultSerialize` is `JSON.stringify` with a replacer that encodes a
`bigint` as the string `"bigint::" + v.toString()` and a `Uint8Array` as
`"uint8array::" + Array.from(v).join(',')`; `defaultDeserialize` is
`JSON.parse` with the reviver undoing both sentinels.  The model works at
the level of structured JSON values: the replacer/reviver passes are
modelled directly (they are the repository's code), while the host's
JSON text encoding — exact on plain values, which is all the replacer
emits — is the identity bridge between them.  JS strings are modelled as
`List Char`. -/

mutual
/-- A JS value the serializer may receive: JSON leaves plus `bigint`
(`vbig`) and `Uint8Array` (`vbytes`, a list of byte values). -/
inductive JsVal where
  | vnull : JsVal
  | vbool : Bool → JsVal
  | vnum : Int → JsVal
  | vstr : List Char → JsVal
  | vbig : Int → JsVal
  | vbytes : List Nat → JsVal
  | varr : JsArr → JsVal
  | vobj : JsObj → JsVal
/-- A JS array of such values. -/
inductive JsArr where
  | anil : JsArr
  | acons : JsVal → JsArr → JsArr
/-- A JS object: ordered string-keyed fields. -/
inductive JsObj where
  | onil : JsObj
  | ocons : List Char → JsVal → JsObj → JsObj
end

/-- The characters of the `"bigint::"` sentinel. -/
def bigSentinel : List Char := ['b', 'i', 'g', 'i', 'n', 't', ':', ':']

/-- The characters of the `"uint8array::"` sentinel. -/
def u8Sentinel : List Char :=
  ['u', 'i', 'n', 't', '8', 'a', 'r', 'r', 'a', 'y', ':', ':']

/-- Model of `String.prototype.startsWith`. -/
def strStartsWith : List Char → List Char → Bool
  | _, [] => true
  | [], _ :: _ => false
  | c :: cs, p :: ps => c == p && strStartsWith cs ps

/-- The decimal digit characters, as produced by JS number-to-string
conversion. -/
def digitChar : Nat → Char
  | 0 => '0' | 1 => '1' | 2 => '2' | 3 => '3' | 4 => '4'
  | 5 => '5' | 6 => '6' | 7 => '7' | 8 => '8' | _ => '9'

/-- Numeric value of a decimal digit character. -/
def charDigit (c : Char) : Nat := c.toNat - 48

/-- Decimal digit test (`0`–`9`). -/
def isDigitChar (c : Char) : Bool :=
  decide (48 ≤ c.toNat) && decide (c.toNat ≤ 57)

/-- Model of JS number-to-decimal-string conversion (`String(n)` /
`n.toString()` for a non-negative integer). -/
def natToChars (n : Nat) : List Char :=
  if _h : n < 10 then [digitChar n]
  else natToChars (n / 10) ++ [digitChar (n % 10)]
termination_by n
decreasing_by
  exact Nat.div_lt_self (by omega) (by omega)

/-- Model of `BigInt.prototype.toString` (sign, then decimal digits). -/
def intToChars (i : Int) : List Char :=
  if i < 0 then '-' :: natToChars i.natAbs else natToChars i.toNat

/-- Decimal parse of a digit string (the numeric part of `Number` /
`BigInt` on well-formed input). -/
def parseDigits (s : List Char) : Nat :=
  s.foldl (fun a c => 10 * a + charDigit c) 0

/-- Model of JS `Number(s)` as consumed through `Uint8Array` element
conversion: the empty string is `0`, a digit string is its value, and
anything else is `NaN`, which `ToUint8` turns into `0`. -/
def jsNumber (s : List Char) : Nat :=
  if s.isEmpty then 0
  else if s.all isDigitChar then parseDigits s else 0

/-- Model of `BigInt(s)` on the strings the serializer produces: an
optional leading minus sign followed by decimal digits. -/
def jsBigInt (s : List Char) : Int :=
  if strStartsWith s ['-'] then -(parseDigits (s.drop 1) : Int)
  else (parseDigits s : Int)

/-- The reviver's `Uint8Array` decoding:
`new Uint8Array(v.slice(12).split(',').map(Number))` — each element is
stored modulo 2^8 (`ToUint8`). -/
def decodeBytes (s : List Char) : List Nat :=
  (s.splitOn ',').map (fun g => jsNumber g % 256)

mutual
/-- Model of `defaultSerialize` from `createStorage.ts`: the
`JSON.stringify` replacer applied recursively — a `bigint` becomes the
`"bigint::"`-tagged string, a `Uint8Array` the `"uint8array::"`-tagged
comma-joined byte list, everything else is encoded structurally. -/
def defaultSerialize : JsVal → JsVal
  | .vnull => .vnull
  | .vbool b => .vbool b
  | .vnum n => .vnum n
  | .vstr s => .vstr s
  | .vbig i => .vstr (bigSentinel ++ intToChars i)
  | .vbytes bs =>
      .vstr (u8Sentinel ++ List.intercalate [','] (bs.map natToChars))
  | .varr xs => .varr (defaultSerializeArr xs)
  | .vobj fs => .vobj (defaultSerializeObj fs)
/-- The replacer mapped over an array. -/
def defaultSerializeArr : JsArr → JsArr
  | .anil => .anil
  | .acons v rest => .acons (defaultSerialize v) (defaultSerializeArr rest)
/-- The replacer mapped over an object's fields (keys untouched). -/
def defaultSerializeObj : JsObj → JsObj
  | .onil => .onil
  | .ocons k v rest => .ocons k (defaultSerialize v) (defaultSerializeObj rest)
end

mutual
/-- Model of `defaultDeserialize` from `createStorage.ts`: the
`JSON.parse` reviver applied recursively — a string starting with
`"bigint::"` becomes a `bigint`, then a string starting with
`"uint8array::"` becomes a `Uint8Array`, everything else is kept. -/
def defaultDeserialize : JsVal → JsVal
  | .vnull => .vnull
  | .vbool b => .vbool b
  | .vnum n => .vnum n
  | .vstr s =>
      if strStartsWith s bigSentinel then .vbig (jsBigInt (s.drop 8))
      else if strStartsWith s u8Sentinel then .vbytes (decodeBytes (s.drop 12))
      else .vstr s
  | .vbig i => .vbig i
  | .vbytes bs => .vbytes bs
  | .varr xs => .varr (defaultDeserializeArr xs)
  | .vobj fs => .vobj (defaultDeserializeObj fs)
/-- The reviver mapped over an array. -/
def defaultDeserializeArr : JsArr → JsArr
  | .anil => .anil
  | .acons v rest =>
      .acons (defaultDeserialize v) (defaultDeserializeArr rest)
/-- The reviver mapped over an object's fields. -/
def defaultDeserializeObj : JsObj → JsObj
  | .onil => .onil
  | .ocons k v rest =>
      .ocons k (defaultDeserialize v) (defaultDeserializeObj rest)
end

mutual
/-- The round-tripping domain: every `Uint8Array` is non-empty with byte
values below 256 (as the type guarantees in JS), and no string leaf
starts with one of the two sentinels. -/
def supportedVal : JsVal → Bool
  | .vnull => true
  | .vbool _ => true
  | .vnum _ => true
  | .vstr s => !(strStartsWith s bigSentinel) && !(strStartsWith s u8Sentinel)
  | .vbig _ => true
  | .vbytes bs => !bs.isEmpty && bs.all (fun b => b < 256)
  | .varr xs => supportedArr xs
  | .vobj fs => supportedObj fs
/-- `supportedVal` over an array. -/
def supportedArr : JsArr → Bool
  | .anil => true
  | .acons v rest => supportedVal v && supportedArr rest
/-- `supportedVal` over an object's fields. -/
def supportedObj : JsObj → Bool
  | .onil => true
  | .ocons _ v rest => supportedVal v && supportedObj rest
end

end FhevmSpec

namespace FhevmSpec

/-! ## Theorems: C9, C10, C4 -/

/-- C9: `_internal.chains.setState` with an empty list leaves the
previously configured list unchanged, and with a non-empty list replaces
the whole list. -/
theorem chainsSetState_empty_noop_nonempty_replaces
    (current L : List Int) (hL : L ≠ []) :
    chainsSetState current (.inl []) = current ∧
    chainsSetState current (.inl L) = L := by
  constructor
  · rfl
  · simp [chainsSetState, List.length_eq_zero, hL]

/-- Witness for C9 at a concrete store. -/
theorem chainsSetState_empty_noop_nonempty_replaces_witness :
    chainsSetState [1, 2] (.inl []) = [1, 2] ∧
    chainsSetState [1, 2] (.inl [3]) = [3] :=
  chainsSetState_empty_noop_nonempty_replaces [1, 2] [3] (by decide)

/-- C10 counterexample: passing JS `null` to `config.setState` is not
reset to the initial state — `typeof null === 'object'` passes the first
guard and `'chainId' in null` throws a `TypeError`, leaving the store
untouched. -/
theorem setState_null_throws_not_reset :
    setStateModel [31337] .jsNull = .error () ∧
    setStateModel [31337] .jsNull ≠ .ok (getInitialState [31337]) := by
  constructor
  · rfl
  · intro h
    simp [setStateModel] at h

/-- C10 (amended): for every value other than JS `null` passed to
`config.setState`, a non-object value or an object missing one of the
base state keys (`chainId`, `status`, `instance`, `error`) resets the
store to the initial state, and an object carrying all base keys is
stored as given — so every stored state has the full session-state
shape. -/
theorem setState_resets_malformed (chains : List Int) (keys : List String)
    (st : SessionState) (k : String) (hk : k ∈ baseStateKeys)
    (hmiss : k ∉ keys) :
    setStateModel chains .nonObject = .ok (getInitialState chains) ∧
    setStateModel chains (.obj keys st) = .ok (getInitialState chains) ∧
    (∀ keys', (∀ b ∈ baseStateKeys, b ∈ keys') →
      setStateModel chains (.obj keys' st) = .ok st) := by
  refine ⟨rfl, ?_, ?_⟩
  · have h : baseStateKeys.any (fun b => !(keys.contains b)) = true := by
      simp only [List.any_eq_true]
      exact ⟨k, hk, by simp [List.elem_iff, List.contains, hmiss]⟩
    simp only [setStateModel]
    rw [if_pos h]
  · intro keys' hall
    have h : baseStateKeys.any (fun b => !(keys'.contains b)) = false := by
      simp only [List.any_eq_false]
      intro b hb
      simp [List.elem_iff, List.contains, hall b hb]
    simp only [setStateModel]
    rw [h]
    simp

/-- Witness for the amended C10 at a concrete malformed object (missing
`status`) and a concrete well-shaped object. -/
theorem setState_resets_malformed_witness :
    setStateModel [31337] .nonObject = .ok (getInitialState [31337]) ∧
    setStateModel [31337] (.obj ["chainId"] (getInitialState [31337])) =
      .ok (getInitialState [31337]) ∧
    (∀ keys', (∀ b ∈ baseStateKeys, b ∈ keys') →
      setStateModel [31337] (.obj keys' (getInitialState [31337])) =
        .ok (getInitialState [31337])) :=
  setState_resets_malformed [31337] ["chainId"] (getInitialState [31337])
    "status" (by decide) (by decide)

/-- C4: on rehydration, a persisted `chainId` that is not a member of
the configured chains list is discarded in favour of the first configured
chain id (the current state at hydration time is `getInitialState()`,
whose `chainId` is the first configured id), and the merged state always
has `status = idle`, `instance = null`, `error = null` regardless of what
was persisted. -/
theorem mergePersisted_invalid_chain_falls_back
    (c0 : Int) (cs : List Int) (n : Int) (hn : n ∉ c0 :: cs)
    (p : PersistedValue) (current : SessionState) :
    mergePersisted (c0 :: cs) (.objChainId n) (getInitialState (c0 :: cs)) =
      { chainId := c0, inst := none, status := .idle, error := none } ∧
    (mergePersisted (c0 :: cs) p current).status = .idle ∧
    (mergePersisted (c0 :: cs) p current).inst = none ∧
    (mergePersisted (c0 :: cs) p current).error = none := by
  refine ⟨?_, rfl, rfl, rfl⟩
  have hany : (c0 :: cs).any (fun x => x == n) = false := by
    simp only [List.any_eq_false]
    intro x hx
    simp only [beq_iff_eq]
    intro h
    exact hn (h ▸ hx)
  simp [mergePersisted, validatePersistedChainId, hany, getInitialState]

/-- Witness for C4: persisted chain id `999` is not among `[31337, 1]`,
so rehydration falls back to `31337` with status `idle`. -/
theorem mergePersisted_invalid_chain_falls_back_witness :
    mergePersisted [31337, 1] (.objChainId 999) (getInitialState [31337, 1]) =
      { chainId := 31337, inst := none, status := .idle, error := none } ∧
    (mergePersisted [31337, 1] .notObj (getInitialState [31337, 1])).status =
      .idle ∧
    (mergePersisted [31337, 1] .notObj (getInitialState [31337, 1])).inst =
      none ∧
    (mergePersisted [31337, 1] .notObj (getInitialState [31337, 1])).error =
      none :=
  mergePersisted_invalid_chain_falls_back 31337 [1] 999 (by decide)
    .notObj (getInitialState [31337, 1])

/-! ## Theorems: C2, C3 -/

/-- Membership is preserved by the JS `Set` deduplication. -/
theorem mem_jsSetDedup : ∀ (l : List String) (x : String),
    x ∈ jsSetDedup l ↔ x ∈ l
  | [], x => by simp [jsSetDedup]
  | a :: rest, x => by
      rw [jsSetDedup]
      simp only [List.mem_cons]
      rw [mem_jsSetDedup (rest.filter (fun y => y != a)) x]
      simp only [List.mem_filter, bne_iff_ne]
      by_cases hxa : x = a <;> simp [hxa]
termination_by l => l.length
decreasing_by
  exact Nat.lt_succ_of_le (List.length_filter_le _ _)

/-- C2: an authorization artifact with `durationDays = 7` signed at time
`T` passes the validity check used in `decrypt` at `T + 6` (the call
cannot fail with `SIGNATURE_EXPIRED` there), is rejected at `T + 8`
(`decrypt` fails with `SIGNATURE_EXPIRED`), and in general `decrypt`
fails with `SIGNATURE_EXPIRED` exactly when
`now < startTimestamp + durationDays` fails. -/
theorem decrypt_expiry_window (T : Int) (sig : FhevmDecryptionSignature)
    (requests : List DecryptRequest) (userDecrypt : Except Nat Nat)
    (hreq : requests ≠ []) (hstart : sig.startTimestamp = T)
    (hdur : sig.durationDays = 7) :
    decrypt requests (some sig) (T + 6) userDecrypt ≠
      .error .signatureExpired ∧
    decrypt requests (some sig) (T + 8) userDecrypt =
      .error .signatureExpired ∧
    (∀ now : Int,
      decrypt requests (some sig) now userDecrypt = .error .signatureExpired ↔
        ¬ now < sig.startTimestamp + sig.durationDays) := by
  have hne : requests.isEmpty = false := by
    cases requests with
    | nil => exact absurd rfl hreq
    | cons r rest => rfl
  have hgen : ∀ now : Int,
      decrypt requests (some sig) now userDecrypt = .error .signatureExpired ↔
        ¬ now < sig.startTimestamp + sig.durationDays := by
    intro now
    by_cases hv : now < sig.startTimestamp + sig.durationDays
    · have hvb : sig.isValid now = true := by
        simp [FhevmDecryptionSignature.isValid, hv]
      simp only [decrypt, hne, Bool.false_eq_true, if_false, hvb,
        Bool.not_true]
      constructor
      · intro h
        split at h <;> simp_all
        split at h <;> simp_all
        split at h <;> simp_all
      · intro h
        exact absurd hv h
    · have hvb : sig.isValid now = false := by
        simp [FhevmDecryptionSignature.isValid, hv]
      simp [decrypt, hne, hvb]
      omega
  refine ⟨?_, ?_, hgen⟩
  · intro h
    have := (hgen (T + 6)).mp h
    rw [hstart, hdur] at this
    omega
  · rw [hgen (T + 8), hstart, hdur]
    omega

/-- Witness for C2 at a concrete artifact signed at time `0` with a
single request. -/
theorem decrypt_expiry_window_witness :
    let sig : FhevmDecryptionSignature :=
      { publicKey := "pk", privateKey := "sk", signature := "sig"
        contractAddresses := ["0xa"], userAddress := "0xu"
        startTimestamp := 0, durationDays := 7 }
    let requests := [DecryptRequest.mk "0xff" "0xa"]
    decrypt requests (some sig) 6 (.ok 0) ≠ .error .signatureExpired ∧
    decrypt requests (some sig) 8 (.ok 0) = .error .signatureExpired ∧
    (∀ now : Int,
      decrypt requests (some sig) now (.ok 0) = .error .signatureExpired ↔
        ¬ now < sig.startTimestamp + sig.durationDays) :=
  decrypt_expiry_window 0 _ _ (.ok 0) (by decide) rfl rfl

/-- C3: a requested contract-address set not fully covered by the cached
artifact is a cache miss — `loadOrSign` re-signs, producing a fresh
artifact covering exactly the requested set — and the `decrypt` action
never succeeds with a signature that does not cover every requested
contract address (the `hasAllAddresses` guard throws
`SIGNATURE_MISMATCH` before any decryption). -/
theorem decrypt_partial_coverage_is_cache_miss
    (cached : FhevmDecryptionSignature) (addrs : List String)
    (user : String) (now : Int) (fresh : FreshSignature)
    (a : String) (ha : a ∈ addrs)
    (hmiss : cached.contractAddresses.contains a = false)
    (requests : List DecryptRequest) (sig : FhevmDecryptionSignature)
    (b : String) (hb : b ∈ requests.map (·.contractAddress))
    (hbmiss : sig.contractAddresses.contains b = false) :
    ((loadOrSign (some cached) addrs user now fresh).2 = true ∧
     (loadOrSign (some cached) addrs user now fresh).1.contractAddresses =
       addrs) ∧
    (∀ (now' : Int) (userDecrypt : Except Nat Nat) (r : Option Nat),
      decrypt requests (some sig) now' userDecrypt ≠ .ok r) := by
  constructor
  · have hall : (addrs.all fun x => cached.contractAddresses.contains x)
        = false := by
      simp only [List.all_eq_false]
      refine ⟨a, ha, fun hmem => ?_⟩
      rw [hmem] at hmiss
      exact Bool.noConfusion hmiss
    rw [loadOrSign, hall, Bool.and_false]
    simp [mintSignature]
  · intro now' userDecrypt r h
    have hne : requests.isEmpty = false := by
      cases requests with
      | nil => simp at hb
      | cons q rest => rfl
    simp only [decrypt, hne, Bool.false_eq_true, if_false] at h
    split at h
    · simp at h
    · have hallb : ((jsSetDedup (requests.map (·.contractAddress))).all
          fun addr => sig.contractAddresses.contains addr) = false := by
        simp only [List.all_eq_false]
        refine ⟨b, (mem_jsSetDedup _ _).mpr hb, fun hmem => ?_⟩
        rw [hmem] at hbmiss
        exact Bool.noConfusion hbmiss
      rw [hallb] at h
      simp at h

/-- Witness for C3: requesting `{0xa, 0xb}` against a cached artifact
covering only `{0xa}`. -/
theorem decrypt_partial_coverage_is_cache_miss_witness :
    let cached : FhevmDecryptionSignature :=
      { publicKey := "pk", privateKey := "sk", signature := "sig"
        contractAddresses := ["0xa"], userAddress := "0xu"
        startTimestamp := 0, durationDays := 365 }
    let fresh : FreshSignature :=
      { publicKey := "pk2", privateKey := "sk2", signature := "sig2"
        durationDays := 365 }
    let requests := [DecryptRequest.mk "0xff" "0xa",
                     DecryptRequest.mk "0xee" "0xb"]
    ((loadOrSign (some cached) ["0xa", "0xb"] "0xu" 1 fresh).2 = true ∧
     (loadOrSign (some cached) ["0xa", "0xb"] "0xu" 1
        fresh).1.contractAddresses = ["0xa", "0xb"]) ∧
    (∀ (now' : Int) (userDecrypt : Except Nat Nat) (r : Option Nat),
      decrypt requests (some cached) now' userDecrypt ≠ .ok r) :=
  decrypt_partial_coverage_is_cache_miss _ ["0xa", "0xb"] "0xu" 1 _
    "0xb" (by decide) (by decide) _ _ "0xb" (by decide) (by decide)

/-! ## Theorems: C1, C6, C7, C8 -/

/-- Looking up the key just written into the instance cache returns the
written instance. -/
theorem mapGet_mapSet_self (m : List (Int × Nat)) (k : Int) (v : Nat) :
    mapGet (mapSet m k v) k = some v := by
  simp [mapGet, mapSet, List.find?]

/-- The only error the Hardhat probe itself throws is
`WEB3_CLIENTVERSION_ERROR` (the metadata RPC failure is caught inside). -/
theorem tryFetch_error_is_web3 (env : AcquireEnv) (e : FhevmErr)
    (h : tryFetchFHEVMHardhatNodeRelayerMetadata env = .error e) :
    e = .coded "WEB3_CLIENTVERSION_ERROR" := by
  unfold tryFetchFHEVMHardhatNodeRelayerMetadata at h
  repeat' split at h
  all_goals simp_all

/-- The acquisition core never produces the `CHAIN_NOT_CONFIGURED`
error: that code is raised only by the configuration check before the
`try` block. -/
theorem acquireCore_ne_chain_not_configured (env : AcquireEnv)
    (isMock : Bool) :
    (acquireCore env isMock).1 ≠ .error (.coded "CHAIN_NOT_CONFIGURED") := by
  have hp : (prodCore env).1 ≠ .error (.coded "CHAIN_NOT_CONFIGURED") := by
    simp only [prodCore]
    repeat' split
    all_goals simp
  simp only [acquireCore]
  split
  · rcases htf : tryFetchFHEVMHardhatNodeRelayerMetadata env with e | md
    · have := tryFetch_error_is_web3 env e htf
      simp [this]
    · cases md with
      | none => exact hp
      | some md =>
          repeat' split
          all_goals simp_all
  · exact hp

/-- Every branch of the acquisition core performs at most one
construction. -/
theorem acquireCore_constructions_le_one (env : AcquireEnv)
    (isMock : Bool) : (acquireCore env isMock).2 ≤ 1 := by
  have hp : (prodCore env).2 ≤ 1 := by
    simp only [prodCore]
    repeat' split
    all_goals simp
  simp only [acquireCore]
  repeat' split
  all_goals simp_all

/-- If the abort signal reads `true` at every checkpoint, the production
branch aborts at its first checkpoint. -/
theorem prodCore_aborted (env : AcquireEnv)
    (h : env.signalAborted 0 = true) :
    (prodCore env).1 = .error .abortErr := by
  simp [prodCore, h]

/-- If the abort signal reads `true` at every checkpoint and the Hardhat
probe does not itself fail, the acquisition core aborts. -/
theorem acquireCore_aborted (env : AcquireEnv) (isMock : Bool)
    (h : ∀ k, env.signalAborted k = true)
    (hprobe : ∀ e, tryFetchFHEVMHardhatNodeRelayerMetadata env ≠ .error e) :
    (acquireCore env isMock).1 = .error .abortErr := by
  simp only [acquireCore]
  split
  · split
    · rename_i e heq
      exact absurd heq (hprobe e)
    · simp [h 0]
    · exact prodCore_aborted env (h 0)
  · exact prodCore_aborted env (h 0)

/-- A cache hit: when the resolved chain id is configured and already
cached, `createInstance` returns the cached instance as `ready` without
touching the cache or constructing. -/
theorem createInstance_cache_hit (cfg : FhevmConfig) (st : ConfigState)
    (env : AcquireEnv) (c : Int) (inst : Nat)
    (h : env.chainIdResult = .ok c)
    (hconf : isChainConfigured cfg c = true)
    (hcache : mapGet st.instances c = some inst) :
    createInstance cfg st env = readyRun st.instances c inst 0 := by
  unfold createInstance
  rw [h]
  simp only [hconf, Bool.not_true, Bool.false_eq_true, if_false, hcache]

/-- A successful `createInstance` call leaves the returned instance in
the cache under the resolved chain id. -/
theorem createInstance_ok_caches (cfg : FhevmConfig) (st : ConfigState)
    (env : AcquireEnv) (c : Int) (inst : Nat)
    (h : env.chainIdResult = .ok c)
    (hok : (createInstance cfg st env).result = .ok inst) :
    mapGet (createInstance cfg st env).instances c = some inst := by
  unfold createInstance at hok ⊢
  rw [h] at hok ⊢
  simp only at hok ⊢
  by_cases hcfg : isChainConfigured cfg c
  · simp only [hcfg, Bool.not_true, Bool.false_eq_true, if_false] at hok ⊢
    rcases hmg : mapGet st.instances c with _ | cached
    · rw [hmg] at hok
      rcases hcore : acquireCore env
          (resolve env.providerIsUrl env.providerUrl c
            cfg.mockChains).isMock with ⟨res, n⟩
      rw [hcore] at hok
      cases res with
      | error e => simp [errRun] at hok
      | ok i =>
          simp only [readyRun, Except.ok.injEq] at hok ⊢
          rw [hok]
          exact mapGet_mapSet_self _ _ _
    · rw [hmg] at hok
      simp only [readyRun, Except.ok.injEq] at hok ⊢
      rw [hmg, hok]
  · simp [hcfg] at hok

/-- A successful `createInstance` call implies the resolved chain id was
configured. -/
theorem createInstance_ok_configured (cfg : FhevmConfig)
    (st : ConfigState) (env : AcquireEnv) (c : Int) (inst : Nat)
    (h : env.chainIdResult = .ok c)
    (hok : (createInstance cfg st env).result = .ok inst) :
    isChainConfigured cfg c = true := by
  unfold createInstance at hok
  rw [h] at hok
  simp only at hok
  split at hok
  · simp at hok
  · rename_i hcond
    simp at hcond
    exact hcond

/-- C1: after a successful `createInstance` call resolving to chain id
`c`, a second sequential call resolving to the same id returns the
identical cached instance, performs zero constructions (each call
performs at most one, so construction happens once per network id), does
not touch the cache, and publishes `{status: ready, instance: cached}`. -/
theorem createInstance_second_call_uses_cache (cfg : FhevmConfig)
    (st : ConfigState) (env1 env2 : AcquireEnv) (c : Int) (inst : Nat)
    (h1 : env1.chainIdResult = .ok c)
    (h2 : env2.chainIdResult = .ok c)
    (hok : (createInstance cfg st env1).result = .ok inst) :
    (createInstance cfg
        ⟨(createInstance cfg st env1).instances,
         (createInstance cfg st env1).session⟩ env2).result = .ok inst ∧
    (createInstance cfg
        ⟨(createInstance cfg st env1).instances,
         (createInstance cfg st env1).session⟩ env2).constructions = 0 ∧
    (createInstance cfg st env1).constructions ≤ 1 ∧
    (createInstance cfg
        ⟨(createInstance cfg st env1).instances,
         (createInstance cfg st env1).session⟩ env2).instances =
      (createInstance cfg st env1).instances ∧
    (createInstance cfg
        ⟨(createInstance cfg st env1).instances,
         (createInstance cfg st env1).session⟩ env2).session =
      { chainId := c, inst := some inst, status := .ready, error := none } := by
  have hcache := createInstance_ok_caches cfg st env1 c inst h1 hok
  have hconf := createInstance_ok_configured cfg st env1 c inst h1 hok
  have hn1 : (createInstance cfg st env1).constructions ≤ 1 := by
    unfold createInstance
    rw [h1]
    simp only
    split
    · simp
    · split
      · simp [readyRun]
      · split
        · rename_i e n hcore
          have := acquireCore_constructions_le_one env1
            (resolve env1.providerIsUrl env1.providerUrl c
              cfg.mockChains).isMock
          rw [hcore] at this
          simpa [errRun] using this
        · rename_i i n hcore
          have := acquireCore_constructions_le_one env1
            (resolve env1.providerIsUrl env1.providerUrl c
              cfg.mockChains).isMock
          rw [hcore] at this
          simpa [readyRun] using this
  have hrun2 := createInstance_cache_hit cfg
    ⟨(createInstance cfg st env1).instances,
     (createInstance cfg st env1).session⟩ env2 c inst h2 hconf hcache
  refine ⟨?_, ?_, hn1, ?_, ?_⟩ <;> rw [hrun2] <;> rfl

/-- Witness for C1: chain `31337` with the instance `7` already cached,
two sequential calls with never-aborting signals. -/
theorem createInstance_second_call_uses_cache_witness :
    let cfg : FhevmConfig := { chains := [31337], mockChains := none }
    let st : ConfigState :=
      { instances := [(31337, 7)]
        session := { chainId := 31337, inst := none, status := .idle
                     error := none } }
    let env : AcquireEnv :=
      { chainIdResult := .ok 31337, providerIsUrl := true
        providerUrl := "http://localhost:8545"
        web3ClientVersion := .ok none, relayerMetadata := .error 0
        signalAborted := fun _ => false, mockInstanceResult := .error 0
        windowAvailable := false, windowIsFhevm := false
        windowIsFhevmAfterLoad := false, sdkInitDone := false
        loadSDKResult := .ok (), initSDKResult := .ok ()
        publicKeyGetResult := .error 0, aclIsAddress := false
        prodInstanceResult := .error 0, publicKeySetResult := .ok () }
    (createInstance cfg
        ⟨(createInstance cfg st env).instances,
         (createInstance cfg st env).session⟩ env).result = .ok 7 ∧
    (createInstance cfg
        ⟨(createInstance cfg st env).instances,
         (createInstance cfg st env).session⟩ env).constructions = 0 ∧
    (createInstance cfg st env).constructions ≤ 1 ∧
    (createInstance cfg
        ⟨(createInstance cfg st env).instances,
         (createInstance cfg st env).session⟩ env).instances =
      (createInstance cfg st env).instances ∧
    (createInstance cfg
        ⟨(createInstance cfg st env).instances,
         (createInstance cfg st env).session⟩ env).session =
      { chainId := 31337, inst := some 7, status := .ready, error := none } :=
  createInstance_second_call_uses_cache _ _ _ _ 31337 7 rfl rfl rfl

/-- C6: a resolved chain id absent from both the configured chains list
and the raw mock-chains table is rejected with `CHAIN_NOT_CONFIGURED`;
a resolved id present in either is never rejected with that code
(whatever else the call does). -/
theorem createInstance_chain_not_configured_iff (cfg : FhevmConfig)
    (st : ConfigState) (env : AcquireEnv) (c : Int)
    (h : env.chainIdResult = .ok c) :
    ((c ∉ cfg.chains ∧
        ∀ mc, cfg.mockChains = some mc → ∀ u, (c, u) ∉ mc) →
      (createInstance cfg st env).result =
        .error (.coded "CHAIN_NOT_CONFIGURED")) ∧
    ((c ∈ cfg.chains ∨
        ∃ mc u, cfg.mockChains = some mc ∧ (c, u) ∈ mc) →
      (createInstance cfg st env).result ≠
        .error (.coded "CHAIN_NOT_CONFIGURED")) := by
  have hchar : isChainConfigured cfg c = true ↔
      (c ∈ cfg.chains ∨ ∃ mc u, cfg.mockChains = some mc ∧ (c, u) ∈ mc) := by
    simp only [isChainConfigured, Bool.or_eq_true, List.elem_iff]
    constructor
    · rintro (hmem | hmock)
      · exact Or.inl hmem
      · right
        rcases hmc : cfg.mockChains with _ | mc
        · rw [hmc] at hmock
          simp at hmock
        · rw [hmc] at hmock
          simp only [List.find?_isSome] at hmock
          rcases hmock with ⟨p, hp, hpc⟩
          exact ⟨mc, p.2, rfl, by
            have : p.1 = c := by simpa using hpc
            rw [← this]
            simpa using hp⟩
    · rintro (hmem | ⟨mc, u, hmc, hu⟩)
      · exact Or.inl hmem
      · right
        rw [hmc]
        simp only [List.find?_isSome]
        exact ⟨(c, u), hu, by simp⟩
  constructor
  · intro ⟨hch, hmc⟩
    have hconf : isChainConfigured cfg c = false := by
      rw [← Bool.not_eq_true, hchar]
      rintro (hmem | ⟨mc, u, hmceq, hu⟩)
      · exact hch hmem
      · exact hmc mc hmceq u hu
    unfold createInstance
    rw [h]
    simp [hconf]
  · intro hpresent hres
    have hconf : isChainConfigured cfg c = true := hchar.mpr hpresent
    unfold createInstance at hres
    rw [h] at hres
    simp only [hconf, Bool.not_true, Bool.false_eq_true, if_false] at hres
    rcases hmg : mapGet st.instances c with _ | cached
    · rw [hmg] at hres
      rcases hcore : acquireCore env
          (resolve env.providerIsUrl env.providerUrl c
            cfg.mockChains).isMock with ⟨res, n⟩
      rw [hcore] at hres
      have hne := acquireCore_ne_chain_not_configured env
        (resolve env.providerIsUrl env.providerUrl c cfg.mockChains).isMock
      rw [hcore] at hne
      cases res with
      | error e =>
          simp only [errRun, Except.error.injEq] at hres
          simp only at hne
          exact hne (by rw [hres])
      | ok i => simp [readyRun] at hres
    · rw [hmg] at hres
      simp [readyRun] at hres

/-- Witness for C6: chain `5` is neither in `[31337]` nor in the mock
table `{31337 ↦ localhost}`, so the call fails with
`CHAIN_NOT_CONFIGURED`; chain `31337` is configured, so that code is
never raised for it. -/
theorem createInstance_chain_not_configured_iff_witness :
    let cfg : FhevmConfig :=
      { chains := [31337]
        mockChains := some [(31337, "http://localhost:8545")] }
    let st : ConfigState :=
      { instances := []
        session := { chainId := 31337, inst := none, status := .idle
                     error := none } }
    let env5 : AcquireEnv :=
      { chainIdResult := .ok 5, providerIsUrl := true
        providerUrl := "http://localhost:8545"
        web3ClientVersion := .ok none, relayerMetadata := .error 0
        signalAborted := fun _ => false, mockInstanceResult := .error 0
        windowAvailable := false, windowIsFhevm := false
        windowIsFhevmAfterLoad := false, sdkInitDone := false
        loadSDKResult := .ok (), initSDKResult := .ok ()
        publicKeyGetResult := .error 0, aclIsAddress := false
        prodInstanceResult := .error 0, publicKeySetResult := .ok () }
    (createInstance cfg st env5).result =
      .error (.coded "CHAIN_NOT_CONFIGURED") ∧
    (createInstance cfg st
        { env5 with chainIdResult := .ok 31337 }).result ≠
      .error (.coded "CHAIN_NOT_CONFIGURED") := by
  refine ⟨?_, ?_⟩
  · exact (createInstance_chain_not_configured_iff _ _ _ 5 rfl).1
      (by constructor
          · decide
          · rintro mc hmc u hu
            cases hmc
            simp at hu)
  · exact (createInstance_chain_not_configured_iff _ _ _ 31337 rfl).2
      (Or.inl (by decide))

/-- C7: every failure of `createInstance` after the chain-configuration
check publishes `{status: error, instance: null, error}` with the very
error that is rethrown (the resolved chain id stays selected). -/
theorem createInstance_failure_sets_error_state (cfg : FhevmConfig)
    (st : ConfigState) (env : AcquireEnv) (c : Int) (e : FhevmErr)
    (h : env.chainIdResult = .ok c)
    (hconf : isChainConfigured cfg c = true)
    (herr : (createInstance cfg st env).result = .error e) :
    (createInstance cfg st env).session =
      { chainId := c, inst := none, status := .error, error := some e } := by
  unfold createInstance at herr ⊢
  rw [h] at herr ⊢
  simp only [hconf, Bool.not_true, Bool.false_eq_true, if_false] at herr ⊢
  rcases hmg : mapGet st.instances c with _ | cached
  · rw [hmg] at herr
    rcases hcore : acquireCore env
        (resolve env.providerIsUrl env.providerUrl c
          cfg.mockChains).isMock with ⟨res, n⟩
    rw [hcore] at herr
    cases res with
    | error e' =>
        simp only [errRun, Except.error.injEq] at herr ⊢
        rw [herr]
    | ok i => simp [readyRun] at herr
  · rw [hmg] at herr
    simp [readyRun] at herr

/-- Witness for C7: an unreachable probe on a mock chain fails the call
with `WEB3_CLIENTVERSION_ERROR`, which is recorded in the session state
and rethrown. -/
theorem createInstance_failure_sets_error_state_witness :
    let cfg : FhevmConfig := { chains := [31337], mockChains := none }
    let st : ConfigState :=
      { instances := []
        session := { chainId := 31337, inst := none, status := .idle
                     error := none } }
    let env : AcquireEnv :=
      { chainIdResult := .ok 31337, providerIsUrl := true
        providerUrl := "http://localhost:8545"
        web3ClientVersion := .error 0, relayerMetadata := .error 0
        signalAborted := fun _ => false, mockInstanceResult := .error 0
        windowAvailable := false, windowIsFhevm := false
        windowIsFhevmAfterLoad := false, sdkInitDone := false
        loadSDKResult := .ok (), initSDKResult := .ok ()
        publicKeyGetResult := .error 0, aclIsAddress := false
        prodInstanceResult := .error 0, publicKeySetResult := .ok () }
    (createInstance cfg st env).session =
      { chainId := 31337, inst := none, status := .error
        error := some (.coded "WEB3_CLIENTVERSION_ERROR") } :=
  createInstance_failure_sets_error_state _ _ _ 31337
    (.coded "WEB3_CLIENTVERSION_ERROR") rfl (by decide) rfl

/-- C8 counterexample: a signal that is already aborted when
`createInstance` is called does not make the call abort — the cache-hit
fast path has no `throwIfAborted`, so the call succeeds with the cached
instance instead of failing with `FhevmAbortError`. -/
theorem createInstance_preaborted_cache_hit_succeeds :
    let cfg : FhevmConfig := { chains := [31337], mockChains := none }
    let st : ConfigState :=
      { instances := [(31337, 7)]
        session := { chainId := 31337, inst := none, status := .idle
                     error := none } }
    let env : AcquireEnv :=
      { chainIdResult := .ok 31337, providerIsUrl := true
        providerUrl := "http://localhost:8545"
        web3ClientVersion := .ok none, relayerMetadata := .error 0
        signalAborted := fun _ => true, mockInstanceResult := .error 0
        windowAvailable := false, windowIsFhevm := false
        windowIsFhevmAfterLoad := false, sdkInitDone := false
        loadSDKResult := .ok (), initSDKResult := .ok ()
        publicKeyGetResult := .error 0, aclIsAddress := false
        prodInstanceResult := .error 0, publicKeySetResult := .ok () }
    (∀ k, env.signalAborted k = true) ∧
    (createInstance cfg st env).result = .ok 7 ∧
    (createInstance cfg st env).result ≠ .error .abortErr := by
  refine ⟨fun _ => rfl, rfl, ?_⟩
  intro h
  have hcontra : (Except.ok 7 : Except FhevmErr Nat) =
      Except.error FhevmErr.abortErr := by
    rw [← h]
    rfl
  exact Except.noConfusion hcontra

/-- C8 (amended): whenever `createInstance` aborts with the dedicated
cancellation error `FhevmAbortError` (which it does, in particular, when
the signal reads aborted at the first executed checkpoint of a cache-miss
acquisition whose probe did not itself fail), the instance cache is left
unmutated and the session state ends in `status: 'error'` carrying the
abort error — never in `loading`.  The cache-hit fast path and the
pre-checkpoint probe failure do not observe the signal at all. -/
theorem createInstance_abort_leaves_cache_unmutated (cfg : FhevmConfig)
    (st : ConfigState) (env : AcquireEnv) (c : Int)
    (h : env.chainIdResult = .ok c) :
    ((createInstance cfg st env).result = .error .abortErr →
      (createInstance cfg st env).instances = st.instances ∧
      (createInstance cfg st env).session.status = .error ∧
      (createInstance cfg st env).session.error = some .abortErr) ∧
    ((∀ k, env.signalAborted k = true) →
      isChainConfigured cfg c = true →
      mapGet st.instances c = none →
      (∀ e, tryFetchFHEVMHardhatNodeRelayerMetadata env ≠ .error e) →
      (createInstance cfg st env).result = .error .abortErr) := by
  constructor
  · intro habort
    unfold createInstance at habort ⊢
    rw [h] at habort ⊢
    simp only at habort ⊢
    by_cases hcfg : isChainConfigured cfg c
    · simp only [hcfg, Bool.not_true, Bool.false_eq_true, if_false]
        at habort ⊢
      rcases hmg : mapGet st.instances c with _ | cached
      · rw [hmg] at habort
        rcases hcore : acquireCore env
            (resolve env.providerIsUrl env.providerUrl c
              cfg.mockChains).isMock with ⟨res, n⟩
        rw [hcore] at habort
        cases res with
        | error e =>
            simp only [errRun, Except.error.injEq] at habort ⊢
            rw [habort]
            simp
        | ok i => simp [readyRun] at habort
      · rw [hmg] at habort
        simp [readyRun] at habort
    · simp [hcfg] at habort
  · intro hsig hconf hmiss hprobe
    unfold createInstance
    rw [h]
    simp only [hconf, Bool.not_true, Bool.false_eq_true, if_false, hmiss]
    have := acquireCore_aborted env
      (resolve env.providerIsUrl env.providerUrl c cfg.mockChains).isMock
      hsig hprobe
    rcases hcore : acquireCore env
        (resolve env.providerIsUrl env.providerUrl c cfg.mockChains).isMock
      with ⟨res, n⟩
    rw [hcore] at this
    simp only at this
    rw [this]
    simp [errRun]

/-! ## Theorems: C5 -/

/-- Every character emitted by `natToChars` is a decimal digit. -/
theorem natToChars_all_digit (n : Nat) :
    ∀ c ∈ natToChars n, isDigitChar c = true := by
  induction n using Nat.strong_induction_on with
  | _ n ih =>
    rw [natToChars]
    split
    · rename_i h
      intro c hc
      simp only [List.mem_singleton] at hc
      subst hc
      clear ih
      revert h
      revert n
      decide
    · rename_i h
      intro c hc
      rw [List.mem_append] at hc
      rcases hc with hc | hc
      · exact ih (n / 10) (Nat.div_lt_self (by omega) (by omega)) c hc
      · simp only [List.mem_singleton] at hc
        subst hc
        have h10 : n % 10 < 10 := Nat.mod_lt _ (by omega)
        revert h10
        generalize n % 10 = d
        revert d
        decide

/-- `natToChars` never returns the empty string. -/
theorem natToChars_ne_nil (n : Nat) : natToChars n ≠ [] := by
  rw [natToChars]
  split
  · simp
  · simp

/-- A decimal digit character is none of `b`, `u`, `-`, `,`. -/
theorem digit_char_ne (c : Char) (h : isDigitChar c = true) :
    c ≠ 'b' ∧ c ≠ 'u' ∧ c ≠ '-' ∧ c ≠ ',' := by
  refine ⟨?_, ?_, ?_, ?_⟩ <;>
    (intro hc; rw [hc] at h; exact absurd h (by decide))

/-- Folding the decimal parser over `natToChars n` recovers `n` on top of
the shifted accumulator. -/
theorem parseDigits_aux (n : Nat) : ∀ a : Nat,
    (natToChars n).foldl (fun a c => 10 * a + charDigit c) a =
      a * 10 ^ (natToChars n).length + n := by
  induction n using Nat.strong_induction_on with
  | _ n ih =>
    intro a
    rw [natToChars]
    split
    · rename_i h
      have hd : charDigit (digitChar n) = n := by
        clear ih
        revert h
        revert n
        decide
      simp [hd]
      omega
    · rename_i h
      rw [List.foldl_append]
      rw [ih (n / 10) (Nat.div_lt_self (by omega) (by omega)) a]
      have hd : charDigit (digitChar (n % 10)) = n % 10 := by
        have h10 : n % 10 < 10 := Nat.mod_lt _ (by omega)
        revert h10
        generalize n % 10 = d
        revert d
        decide
      have hmod : 10 * (n / 10) + n % 10 = n := Nat.div_add_mod n 10
      simp only [List.foldl_cons, List.foldl_nil, List.length_append,
        List.length_singleton, hd]
      calc 10 * (a * 10 ^ (natToChars (n / 10)).length + n / 10) + n % 10
          = a * 10 ^ (natToChars (n / 10)).length * 10 +
            (10 * (n / 10) + n % 10) := by ring
        _ = a * 10 ^ ((natToChars (n / 10)).length + 1) + n := by
            rw [hmod, pow_succ]
            ring

/-- The decimal parse inverts `natToChars`. -/
theorem parseDigits_natToChars (n : Nat) :
    parseDigits (natToChars n) = n := by
  have := parseDigits_aux n 0
  simpa [parseDigits] using this

/-- `jsNumber` inverts `natToChars`. -/
theorem jsNumber_natToChars (n : Nat) : jsNumber (natToChars n) = n := by
  have hne : (natToChars n).isEmpty = false := by
    rcases hh : natToChars n with _ | ⟨c, rest⟩
    · exact absurd hh (natToChars_ne_nil n)
    · rfl
  have hall : (natToChars n).all isDigitChar = true := by
    rw [List.all_eq_true]
    exact natToChars_all_digit n
  simp [jsNumber, hne, hall, parseDigits_natToChars]

/-- A string that continues a prefix starts with it. -/
theorem strStartsWith_append (p r : List Char) :
    strStartsWith (p ++ r) p = true := by
  induction p with
  | nil =>
      cases r with
      | nil => rfl
      | cons c cs => rfl
  | cons c cs ih => simp [strStartsWith, ih]

/-- A string headed by a character other than the pattern's head does not
start with the pattern. -/
theorem strStartsWith_cons_ne (c : Char) (s : List Char) (p : Char)
    (ps : List Char) (h : c ≠ p) :
    strStartsWith (c :: s) (p :: ps) = false := by
  simp [strStartsWith, h]

/-- `jsBigInt` inverts `intToChars`. -/
theorem jsBigInt_intToChars (i : Int) : jsBigInt (intToChars i) = i := by
  unfold intToChars
  split
  · rename_i hneg
    have : strStartsWith ('-' :: natToChars i.natAbs) ['-'] = true := by
      simp [strStartsWith]
    simp only [jsBigInt, this, if_true, List.drop_one, List.tail_cons]
    rw [parseDigits_natToChars]
    omega
  · rename_i hpos
    have hstart : strStartsWith (natToChars i.toNat) ['-'] = false := by
      rcases hh : natToChars i.toNat with _ | ⟨c, rest⟩
      · exact absurd hh (natToChars_ne_nil _)
      · have hmem : c ∈ natToChars i.toNat := by
          rw [hh]
          exact List.mem_cons_self _ _
        have hc : isDigitChar c = true := natToChars_all_digit i.toNat c hmem
        exact strStartsWith_cons_ne c rest '-' [] (digit_char_ne c hc).2.2.1
    simp only [jsBigInt, hstart, Bool.false_eq_true, if_false]
    rw [parseDigits_natToChars]
    omega

/-- The `"bigint::"` sentinel is not a prefix of a
`"uint8array::"`-tagged string. -/
theorem big_not_prefix_of_u8 (r : List Char) :
    strStartsWith (u8Sentinel ++ r) bigSentinel = false := by
  apply strStartsWith_cons_ne
  decide

/-- Dropping 8 characters removes exactly the `"bigint::"` sentinel. -/
theorem drop_bigSentinel (r : List Char) :
    (bigSentinel ++ r).drop 8 = r :=
  List.drop_left bigSentinel r

/-- Dropping 12 characters removes exactly the `"uint8array::"`
sentinel. -/
theorem drop_u8Sentinel (r : List Char) :
    (u8Sentinel ++ r).drop 12 = r :=
  List.drop_left u8Sentinel r

/-- Splitting the comma-joined byte strings and converting each back
through `Number` recovers the original byte list. -/
theorem decodeBytes_encode (bs : List Nat) (hne : bs ≠ [])
    (hlt : ∀ b ∈ bs, b < 256) :
    decodeBytes (List.intercalate [','] (bs.map natToChars)) = bs := by
  unfold decodeBytes
  rw [List.splitOn_intercalate _ ',' ?hclean ?hnil]
  case hclean =>
    intro l hl
    rw [List.mem_map] at hl
    rcases hl with ⟨b, _, rfl⟩
    intro hcomma
    have := natToChars_all_digit b ',' hcomma
    exact absurd rfl (digit_char_ne ',' this).2.2.2
  case hnil =>
    simp [hne]
  rw [List.map_map]
  conv_rhs => rw [← List.map_id bs]
  apply List.map_congr_left
  intro b hb
  simp only [Function.comp_apply, jsNumber_natToChars, id_eq]
  exact Nat.mod_eq_of_lt (hlt b hb)

/-- A sentinel-tagged string is never empty. -/
theorem strStartsWith_big_of_serialize (i : Int) :
    strStartsWith (bigSentinel ++ intToChars i) bigSentinel = true :=
  strStartsWith_append _ _

mutual
/-- Round trip of the replacer/reviver pair on the supported domain,
proved mutually over values, arrays, and objects. -/
theorem roundtripVal : ∀ v : JsVal, supportedVal v = true →
    defaultDeserialize (defaultSerialize v) = v
  | .vnull, _ => rfl
  | .vbool _, _ => rfl
  | .vnum _, _ => rfl
  | .vstr s, h => by
      simp only [supportedVal, Bool.and_eq_true, Bool.not_eq_true'] at h
      simp [defaultSerialize, defaultDeserialize, h.1, h.2]
  | .vbig i, _ => by
      simp only [defaultSerialize, defaultDeserialize]
      rw [strStartsWith_append]
      simp only [if_true]
      rw [drop_bigSentinel, jsBigInt_intToChars]
  | .vbytes bs, h => by
      simp only [supportedVal, Bool.and_eq_true, Bool.not_eq_true',
        List.isEmpty_eq_false_iff_exists_mem, List.all_eq_true,
        decide_eq_true_eq] at h
      simp only [defaultSerialize, defaultDeserialize]
      rw [big_not_prefix_of_u8]
      rw [strStartsWith_append]
      simp only [Bool.false_eq_true, if_false, if_true]
      rw [drop_u8Sentinel]
      rw [decodeBytes_encode bs (by rcases h.1 with ⟨x, hx⟩
                                    intro hnil
                                    rw [hnil] at hx
                                    simp at hx) h.2]
  | .varr xs, h => by
      simp only [defaultSerialize, defaultDeserialize]
      rw [roundtripArr xs (by simpa [supportedVal] using h)]
  | .vobj fs, h => by
      simp only [defaultSerialize, defaultDeserialize]
      rw [roundtripObj fs (by simpa [supportedVal] using h)]

/-- Round trip over arrays. -/
theorem roundtripArr : ∀ xs : JsArr, supportedArr xs = true →
    defaultDeserializeArr (defaultSerializeArr xs) = xs
  | .anil, _ => rfl
  | .acons v rest, h => by
      simp only [supportedArr, Bool.and_eq_true] at h
      simp only [defaultSerializeArr, defaultDeserializeArr]
      rw [roundtripVal v h.1, roundtripArr rest h.2]

/-- Round trip over object fields. -/
theorem roundtripObj : ∀ fs : JsObj, supportedObj fs = true →
    defaultDeserializeObj (defaultSerializeObj fs) = fs
  | .onil, _ => rfl
  | .ocons k v rest, h => by
      simp only [supportedObj, Bool.and_eq_true] at h
      simp only [defaultSerializeObj, defaultDeserializeObj]
      rw [roundtripVal v h.1, roundtripObj rest h.2]
end

/-- C5 counterexample: an empty `Uint8Array` does not round-trip — it
serializes to the bare `"uint8array::"` sentinel, and deserialization
maps `"".split(',') = [""]` through `Number` to the one-byte buffer
`[0]`. -/
theorem defaultSerialize_empty_bytes_no_roundtrip :
    defaultDeserialize (defaultSerialize (JsVal.vbytes [])) =
      JsVal.vbytes [0] ∧
    JsVal.vbytes [0] ≠ JsVal.vbytes [] := by
  constructor
  · rfl
  · intro h
    injection h with h'
    exact List.noConfusion h'

/-- C5 (amended): the default deserializer inverts the default serializer
— `deserialize(serialize(v)) = v` — for every supported value in which
every binary buffer is non-empty (with byte values 0–255, as
`Uint8Array` guarantees) and no string leaf begins with `"bigint::"` or
`"uint8array::"`; this covers `bigint` and `Uint8Array` leaves nested
anywhere in a JSON-encodable structure.  (An empty `Uint8Array`
round-trips to the one-byte buffer `[0]`, and a sentinel-prefixed string
round-trips to a `bigint`/`Uint8Array` value.) -/
theorem defaultSerialize_roundtrip (v : JsVal)
    (h : supportedVal v = true) :
    defaultDeserialize (defaultSerialize v) = v :=
  roundtripVal v h

/-- Witness for the amended C5 at a concrete nested structure with a
negative `bigint`, a two-byte buffer, strings, numbers, booleans and
null. -/
theorem defaultSerialize_roundtrip_witness :
    supportedVal (JsVal.vobj (JsObj.ocons ['k']
      (JsVal.varr (JsArr.acons (JsVal.vbig (-42))
        (JsArr.acons (JsVal.vbytes [0, 255])
          (JsArr.acons (JsVal.vstr ['h', 'i'])
            (JsArr.acons (JsVal.vnum 7)
              (JsArr.acons (JsVal.vbool true)
                (JsArr.acons JsVal.vnull JsArr.anil)))))))
      JsObj.onil)) = true ∧
    defaultDeserialize (defaultSerialize (JsVal.vobj (JsObj.ocons ['k']
      (JsVal.varr (JsArr.acons (JsVal.vbig (-42))
        (JsArr.acons (JsVal.vbytes [0, 255])
          (JsArr.acons (JsVal.vstr ['h', 'i'])
            (JsArr.acons (JsVal.vnum 7)
              (JsArr.acons (JsVal.vbool true)
                (JsArr.acons JsVal.vnull JsArr.anil)))))))
      JsObj.onil))) =
      JsVal.vobj (JsObj.ocons ['k']
        (JsVal.varr (JsArr.acons (JsVal.vbig (-42))
          (JsArr.acons (JsVal.vbytes [0, 255])
            (JsArr.acons (JsVal.vstr ['h', 'i'])
              (JsArr.acons (JsVal.vnum 7)
                (JsArr.acons (JsVal.vbool true)
                  (JsArr.acons JsVal.vnull JsArr.anil)))))))
        JsObj.onil) :=
  ⟨rfl, defaultSerialize_roundtrip _ rfl⟩

/-- Witness for the amended C8: a pre-aborted signal on a cache-miss call
for a configured non-mock chain aborts with `FhevmAbortError`, leaving
the cache empty and the session in `status: 'error'`. -/
theorem createInstance_abort_leaves_cache_unmutated_witness :
    let cfg : FhevmConfig := { chains := [1], mockChains := none }
    let st : ConfigState :=
      { instances := []
        session := { chainId := 1, inst := none, status := .idle
                     error := none } }
    let env : AcquireEnv :=
      { chainIdResult := .ok 1, providerIsUrl := false
        providerUrl := ""
        web3ClientVersion := .ok none, relayerMetadata := .error 0
        signalAborted := fun _ => true, mockInstanceResult := .error 0
        windowAvailable := true, windowIsFhevm := true
        windowIsFhevmAfterLoad := true, sdkInitDone := true
        loadSDKResult := .ok (), initSDKResult := .ok ()
        publicKeyGetResult := .ok 0, aclIsAddress := true
        prodInstanceResult := .ok 9, publicKeySetResult := .ok () }
    ((createInstance cfg st env).result = .error .abortErr →
      (createInstance cfg st env).instances = st.instances ∧
      (createInstance cfg st env).session.status = .error ∧
      (createInstance cfg st env).session.error = some .abortErr) ∧
    ((∀ k, env.signalAborted k = true) →
      isChainConfigured cfg 1 = true →
      mapGet st.instances 1 = none →
      (∀ e, tryFetchFHEVMHardhatNodeRelayerMetadata env ≠ .error e) →
      (createInstance cfg st env).result = .error .abortErr) :=
  createInstance_abort_leaves_cache_unmutated _ _ _ 1 rfl

end FhevmSpec
